/-
Verification of the Tuggle fidget-toy demo's input normalizer and swipe
carousel controller.

Shallow embedding notes:
* C++ `float` values are modelled as exact rationals (`ℚ`); the claims under
  study are about branch structure and integer page indices, not float
  rounding.
* `cugl::Timestamp` values are modelled as naturals (milliseconds);
  `Timestamp::ellapsedMillis` is modelled as the absolute difference of the
  two instants in milliseconds.
* `cugl::Vec2` is a pair of rationals; `Vec2::length() OP c` comparisons
  against a nonnegative threshold `c` are embedded as the equivalent exact
  comparison of the squared length against `c^2`.
* The input controller is embedded for the mouse (non-`CU_TOUCH_SCREEN`)
  build with the mouse device present, which is the branch containing the
  tap-and-hold and drag detection in `InputController::update`.
-/
import Mathlib

namespace Tuggle

/-- 2D vector with exact rational coordinates, embedding `cugl::Vec2`. -/
structure Vec2 where
  x : ℚ
  y : ℚ
deriving DecidableEq, Repr

namespace Vec2

/-- The zero vector (`Vec2::setZero`). -/
def zero : Vec2 := ⟨0, 0⟩

/-- Componentwise subtraction. -/
def sub (a b : Vec2) : Vec2 := ⟨a.x - b.x, a.y - b.y⟩

/-- Scalar multiplication. -/
def smul (c : ℚ) (a : Vec2) : Vec2 := ⟨c * a.x, c * a.y⟩

/-- Squared Euclidean length of a vector. -/
def len2 (a : Vec2) : ℚ := a.x * a.x + a.y * a.y

/-- `(a - b).length() > c` for a nonnegative threshold `c`, embedded as the
exact comparison of squared lengths. -/
def distGT (a b : Vec2) (c : ℚ) : Bool := decide (c * c < len2 (sub a b))

/-- `(a - b).length() >= c` for a nonnegative threshold `c`. -/
def distGE (a b : Vec2) (c : ℚ) : Bool := decide (c * c ≤ len2 (sub a b))

end Vec2

/-- `Timestamp::ellapsedMillis`: elapsed milliseconds between two instants. -/
def elapsedMillis (a b : ℕ) : ℕ := max a b - min a b

/-! ### Input controller state (`InputController`, src/unnamed/part_004) -/

/-- How much time must pass for a double tap (`DEFAULT_DOUBLE_TAP_TIME`). -/
def DOUBLE_TAP_TIME : ℕ := 400
/-- Minimum time for a tap-and-hold gesture (`DEFAULT_TAP_HOLD_TIME`). -/
def TAP_HOLD_TIME : ℕ := 500
/-- Minimum distance for a swipe gesture (`DEFAULT_SWIPE_MIN_DISTANCE`). -/
def SWIPE_MIN_DISTANCE : ℚ := 50
/-- Maximum time for a swipe gesture (`DEFAULT_SWIPE_MAX_TIME`). -/
def SWIPE_MAX_TIME : ℕ := 300
/-- Minimum distance to consider a drag (`DEFAULT_DRAG_THRESHOLD`). -/
def DRAG_THRESHOLD : ℚ := 2

/-- The mutable state of `InputController` relevant to gesture detection. -/
structure InputState where
  currPos : Vec2
  prevPos : Vec2
  startPos : Vec2
  pointerDown : Bool
  tapped : Bool
  doubleTapped : Bool
  moving : Bool
  dragging : Bool
  dragStarted : Bool
  dragEnded : Bool
  tapHoldDetected : Bool
  swipeDetected : Bool
  swipeVelocity : Vec2
  lastTapTime : ℕ
  pressStartTime : ℕ
deriving DecidableEq, Repr

namespace InputState

/-- State right after `InputController::InputController()` and `init()`:
all flags cleared, positions zero, both timestamps marked `now`. -/
def initial (now : ℕ) : InputState where
  currPos := Vec2.zero
  prevPos := Vec2.zero
  startPos := Vec2.zero
  pointerDown := false
  tapped := false
  doubleTapped := false
  moving := false
  dragging := false
  dragStarted := false
  dragEnded := false
  tapHoldDetected := false
  swipeDetected := false
  swipeVelocity := Vec2.zero
  lastTapTime := now
  pressStartTime := now

/-- `InputController::update(dt)` in the mouse build, sampled at wall-clock
instant `now` (the `Timestamp now; now.mark();` inside it). -/
def update (s : InputState) (now : ℕ) : InputState :=
  -- if (!_dragging || !_moving) _prevPos = _currPos;
  let s := if !s.dragging || !s.moving then { s with prevPos := s.currPos } else s
  -- tap-and-hold check
  let s :=
    if s.pointerDown && !s.dragging && !s.tapHoldDetected &&
        decide (TAP_HOLD_TIME ≤ elapsedMillis now s.pressStartTime) then
      { s with tapHoldDetected := true }
    else s
  -- drag-start check from accumulated movement
  if s.pointerDown && !s.dragging && Vec2.distGT s.currPos s.startPos DRAG_THRESHOLD then
    { s with dragging := true, dragStarted := true }
  else s

/-- `InputController::clearInteractionFlags()`. -/
def clearInteractionFlags (s : InputState) : InputState :=
  { s with
    tapped := false
    doubleTapped := false
    dragStarted := false
    dragEnded := false
    tapHoldDetected := false
    swipeDetected := false
    moving := false
    swipeVelocity := Vec2.zero }

/-- `InputController::pointerBeganCB(pos, stamp)`. -/
def pointerBeganCB (s : InputState) (pos : Vec2) (stamp : ℕ) : InputState :=
  let s :=
    if decide (elapsedMillis s.lastTapTime stamp ≤ DOUBLE_TAP_TIME) then
      { s with doubleTapped := true }
    else s
  { s with
    pointerDown := true
    pressStartTime := stamp
    startPos := pos
    prevPos := s.currPos
    currPos := pos }

/-- Single-tap block of `pointerEndedCB`. -/
def tapCheck (s : InputState) (pos : Vec2) (stamp : ℕ) : InputState :=
  if !s.dragging && !s.tapHoldDetected && !Vec2.distGE pos s.startPos DRAG_THRESHOLD &&
      decide (elapsedMillis stamp s.pressStartTime < TAP_HOLD_TIME) then
    { s with tapped := true, lastTapTime := stamp }
  else s

/-- Swipe block of `pointerEndedCB`. -/
def swipeCheck (s : InputState) (pos : Vec2) (stamp : ℕ) : InputState :=
  if Vec2.distGE pos s.startPos SWIPE_MIN_DISTANCE &&
      decide (elapsedMillis stamp s.pressStartTime ≤ SWIPE_MAX_TIME) then
    let s := { s with swipeDetected := true }
    let elapsedTime : ℚ := (elapsedMillis stamp s.pressStartTime : ℚ) / 1000
    if 0 < elapsedTime then
      { s with swipeVelocity := Vec2.smul (1 / elapsedTime) (Vec2.sub pos s.startPos) }
    else s
  else s

/-- Drag-end block of `pointerEndedCB`. -/
def dragEndCheck (s : InputState) : InputState :=
  if s.dragging then { s with dragging := false, dragEnded := true } else s

/-- `InputController::pointerEndedCB(pos, stamp)`: the three blocks in
source order, after recording the release position. -/
def pointerEndedCB (s : InputState) (pos : Vec2) (stamp : ℕ) : InputState :=
  dragEndCheck
    (swipeCheck (tapCheck { s with pointerDown := false, currPos := pos, prevPos := pos } pos stamp)
      pos stamp)

/-- `InputController::pointerMovedCB(pos, previous)`. -/
def pointerMovedCB (s : InputState) (pos : Vec2) : InputState :=
  let s := { s with prevPos := s.currPos, currPos := pos, moving := true }
  if s.pointerDown && !s.dragging && Vec2.distGT pos s.startPos DRAG_THRESHOLD then
    { s with dragging := true, dragStarted := true }
  else s

end InputState

/-! ### Carousel controller
(`SwipeCarouselController`, src/tuggle-demo/source/SwipeCarouselController.cpp) -/

/-- Number of fidgetables in the carousel (`NUM_FIDGETABLES`, main.cpp). -/
def NUM_FIDGETABLES : ℤ := 8
/-- Snap animation duration in seconds (`SNAP_DURATION`). -/
def SNAP_DURATION : ℚ := 3 / 10
/-- Minimum swipe velocity to trigger page change (`SWIPE_VELOCITY_THRESHOLD`). -/
def SWIPE_VELOCITY_THRESHOLD : ℚ := 500
/-- Number of fidgetable pages actually pushed by `buildFidgetables`
(f1 through f10). -/
def NUM_PAGES_BUILT : ℕ := 10

/-- Floor of a rational, in the kernel-computable `num / den` form. -/
def ratFloor (x : ℚ) : ℤ := x.num / (x.den : ℤ)

/-- Ceiling of a rational, as `-⌊-x⌋`. -/
def ratCeil (x : ℚ) : ℤ := -ratFloor (-x)

/-- `roundf`: round half away from zero, as in C's float rounding. -/
def roundf (x : ℚ) : ℤ := if 0 ≤ x then ratFloor (x + 1 / 2) else ratCeil (x - 1 / 2)

/-- `fabsf`. -/
def fabsf (x : ℚ) : ℚ := if x < 0 then -x else x

/-- `std::max(0, std::min(i, NUM_FIDGETABLES - 1))`. -/
def clampIndex (i : ℤ) : ℤ := max 0 (min i (NUM_FIDGETABLES - 1))

/-- The mutable state of `SwipeCarouselController` relevant to scrolling,
snapping and page activation. `pagesActive` holds the `_isActive` flag of
each of the ten fidgetables in `_fidgetables`, in order. -/
structure CarouselState where
  pageWidth : ℚ
  screenToSceneScale : ℚ
  scrollPos : ℚ
  targetScrollPos : ℚ
  snapStartPos : ℚ
  snapProgress : ℚ
  isSnapping : Bool
  isDragging : Bool
  activePageIndex : ℤ
  scrollStartPos : ℚ
  dragStartPos : Vec2
  pagesActive : List Bool
deriving DecidableEq, Repr

/-- The values the carousel's `update` reads from the input controller this
frame, plus the `isInteracting()` flag of the active fidgetable. -/
structure FrameInput where
  didDragStart : Bool
  inputDragging : Bool
  didDragEnd : Bool
  swipeVelocity : Vec2
  startPosition : Vec2
  position : Vec2
  activeInteracting : Bool
deriving DecidableEq, Repr

namespace CarouselState

/-- `SwipeCarouselController::screenToScene`. -/
def screenToScene (s : CarouselState) (p : Vec2) : Vec2 :=
  ⟨p.x * s.screenToSceneScale, p.y * s.screenToSceneScale⟩

/-- `SwipeCarouselController::clampScrollPos`. -/
def clampScrollPos (s : CarouselState) (pos : ℚ) : ℚ :=
  max 0 (min pos (s.pageWidth * (NUM_FIDGETABLES - 1 : ℤ)))

/-- `SwipeCarouselController::easeOutCubic`. -/
def easeOutCubic (t : ℚ) : ℚ := 1 - (1 - t) * (1 - t) * (1 - t)

/-- `SwipeCarouselController::calculateSnapTarget(velocity)`. -/
def calculateSnapTarget (s : CarouselState) (velocity : ℚ) : ℤ :=
  let currentPage := s.scrollPos / s.pageWidth
  let page : ℤ :=
    if SWIPE_VELOCITY_THRESHOLD < fabsf velocity then
      if 0 < velocity then ratCeil currentPage else ratFloor currentPage
    else roundf currentPage
  clampIndex page

/-- `SwipeCarouselController::startSnapAnimation(targetPage)`. -/
def startSnapAnimation (s : CarouselState) (targetPage : ℤ) : CarouselState :=
  { s with
    targetScrollPos := (targetPage : ℚ) * s.pageWidth
    snapStartPos := s.scrollPos
    snapProgress := 0
    isSnapping := true }

/-- The `_isActive` flags produced by the activation loop in
`updateActivePage`: `_fidgetables[i]->setActive(i == _activePageIndex)`. -/
def activeFlags (idx : ℤ) : List Bool :=
  (List.range NUM_PAGES_BUILT).map fun i => decide ((i : ℤ) = idx)

/-- `SwipeCarouselController::updateActivePage()`. Pagination-dot recoloring
and the haptic pulse have no modelled state. -/
def updateActivePage (s : CarouselState) : CarouselState :=
  let newActiveIndex := clampIndex (roundf (s.scrollPos / s.pageWidth))
  if newActiveIndex ≠ s.activePageIndex then
    { s with activePageIndex := newActiveIndex, pagesActive := activeFlags newActiveIndex }
  else s

/-- State after `init(scene, pageSize, screenToSceneScale, assets)`:
`buildFidgetables` pushes ten pages and ends with
`_fidgetables[0]->setActive(true)`; then `_activePageIndex = 0`,
`_scrollPos = 0`, `_targetScrollPos = 0` and `updateActivePage()`. -/
def carouselInit (pageWidth screenToSceneScale : ℚ) : CarouselState :=
  updateActivePage
    { pageWidth := pageWidth
      screenToSceneScale := screenToSceneScale
      scrollPos := 0
      targetScrollPos := 0
      snapStartPos := 0
      snapProgress := 0
      isSnapping := false
      isDragging := false
      activePageIndex := 0
      scrollStartPos := 0
      dragStartPos := Vec2.zero
      pagesActive := activeFlags 0 }

/-- `getActiveFidgetable()` is non-null iff `0 <= _activePageIndex <
_fidgetables.size()`; the `fidgetableInteracting` local read at the top of
`update`. -/
def fidgetableInteracting (s : CarouselState) (inp : FrameInput) : Bool :=
  if 0 ≤ s.activePageIndex ∧ s.activePageIndex < (NUM_PAGES_BUILT : ℤ) then
    inp.activeInteracting
  else false

/-- Drag-start block of `update`. -/
def updateDragStart (s : CarouselState) (inp : FrameInput) : CarouselState :=
  if inp.didDragStart && !s.isDragging && !fidgetableInteracting s inp then
    { s with
      isDragging := true
      isSnapping := false
      scrollStartPos := s.scrollPos
      dragStartPos := s.screenToScene inp.startPosition }
  else s

/-- Ongoing-drag block of `update`. -/
def updateOngoingDrag (s : CarouselState) (inp : FrameInput) : CarouselState :=
  if s.isDragging && inp.inputDragging && !fidgetableInteracting s inp then
    let currentPos := s.screenToScene inp.position
    let deltaX := s.dragStartPos.x - currentPos.x
    updateActivePage { s with scrollPos := s.clampScrollPos (s.scrollStartPos + deltaX) }
  else s

/-- Drag-cancellation block of `update` (fidgetable took over interaction). -/
def updateDragCancel (s : CarouselState) (inp : FrameInput) : CarouselState :=
  if s.isDragging && fidgetableInteracting s inp then
    let s := { s with isDragging := false }
    startSnapAnimation s (calculateSnapTarget s 0)
  else s

/-- Drag-end block of `update`. -/
def updateDragEnd (s : CarouselState) (inp : FrameInput) : CarouselState :=
  if inp.didDragEnd && s.isDragging then
    let s := { s with isDragging := false }
    let velocityX := -inp.swipeVelocity.x * s.screenToSceneScale
    startSnapAnimation s (calculateSnapTarget s velocityX)
  else s

/-- Snap-animation block of `update`. -/
def updateSnap (s : CarouselState) (timestep : ℚ) : CarouselState :=
  if s.isSnapping && !s.isDragging then
    let progress := s.snapProgress + timestep / SNAP_DURATION
    let s :=
      if 1 ≤ progress then
        { s with snapProgress := 1, isSnapping := false, scrollPos := s.targetScrollPos }
      else
        { s with
          snapProgress := progress
          scrollPos := s.snapStartPos + (s.targetScrollPos - s.snapStartPos) * easeOutCubic progress }
    updateActivePage s
  else s

/-- `SwipeCarouselController::update(timestep)`: the five blocks in source
order. Per-fidgetable `update` calls do not touch modelled carousel state. -/
def update (s : CarouselState) (inp : FrameInput) (timestep : ℚ) : CarouselState :=
  updateSnap (updateDragEnd (updateDragCancel (updateOngoingDrag (updateDragStart s inp) inp) inp) inp) timestep

/-- `SwipeCarouselController::scrollToPage(pageIndex, animated)`. -/
def scrollToPage (s : CarouselState) (pageIndex : ℤ) (animated : Bool) : CarouselState :=
  let pageIndex := clampIndex pageIndex
  if animated then
    startSnapAnimation s pageIndex
  else
    let pos := (pageIndex : ℚ) * s.pageWidth
    updateActivePage { s with scrollPos := pos, targetScrollPos := pos, isSnapping := false }

/-- Reachable carousel states: `init` followed by any interleaving of
per-frame `update` calls (with arbitrary input-controller readings, active
page interaction and timestep) and programmatic `scrollToPage` calls.
Raw gesture events mutate only the input controller, whose per-frame
readings are already arbitrary in the `update` constructor. -/
inductive Reachable : CarouselState → Prop
  | init (pageWidth screenToSceneScale : ℚ) :
      Reachable (carouselInit pageWidth screenToSceneScale)
  | update (s : CarouselState) (inp : FrameInput) (timestep : ℚ) :
      Reachable s → Reachable (update s inp timestep)
  | scroll (s : CarouselState) (pageIndex : ℤ) (animated : Bool) :
      Reachable s → Reachable (scrollToPage s pageIndex animated)

/-- Reachability when animated `scrollToPage` calls are only issued while no
drag is in progress (the restriction under which the mutual-exclusion
invariant of dragging and snapping holds). -/
inductive ReachableNoMidDragScroll : CarouselState → Prop
  | init (pageWidth screenToSceneScale : ℚ) :
      ReachableNoMidDragScroll (carouselInit pageWidth screenToSceneScale)
  | update (s : CarouselState) (inp : FrameInput) (timestep : ℚ) :
      ReachableNoMidDragScroll s → ReachableNoMidDragScroll (update s inp timestep)
  | scroll (s : CarouselState) (pageIndex : ℤ) (animated : Bool) :
      ReachableNoMidDragScroll s → (animated = true → s.isDragging = false) →
      ReachableNoMidDragScroll (scrollToPage s pageIndex animated)

end CarouselState

/-! ### Concrete scenarios used by the individual properties -/

/-- Spec-side snap target, as worded: bias to `ceil` for a fast positive
release velocity, `floor` for a fast negative one, otherwise `round` to the
nearest page, clamped into `[0, N-1]`. -/
def snapTargetSpec (p v : ℚ) : ℤ :=
  max 0 (min (if 500 < |v| then (if 0 < v then ⌈p⌉ else ⌊p⌋) else round p)
    (NUM_FIDGETABLES - 1))

/-- A freshly initialized carousel with `pageWidth = 400` and unit
screen-to-scene scale, mid-drag at `scrollPosition = 150`. -/
def demoState150 : CarouselState := { CarouselState.carouselInit 400 1 with scrollPos := 150 }

/-- Frame input reporting only that a drag started this frame. -/
def dragStartInput : FrameInput :=
  { didDragStart := true, inputDragging := false, didDragEnd := false,
    swipeVelocity := Vec2.zero, startPosition := Vec2.zero, position := Vec2.zero,
    activeInteracting := false }

/-- Frame input reporting that the active fidgetable is being interacted
with. -/
def interactInput : FrameInput :=
  { didDragStart := false, inputDragging := false, didDragEnd := false,
    swipeVelocity := Vec2.zero, startPosition := Vec2.zero, position := Vec2.zero,
    activeInteracting := true }

/-- Carousel state after one frame in which a drag started. -/
def draggingState : CarouselState :=
  CarouselState.update (CarouselState.carouselInit 400 1) dragStartInput (1 / 60)

/-- Carousel state after an animated `scrollToPage(3, true)` issued while the
drag of `draggingState` is still in progress. -/
def bothFlagsState : CarouselState := CarouselState.scrollToPage draggingState 3 true

/-- Input-controller state after a pointer press at the origin at `t = 0`. -/
def pressAt0 : InputState := (InputState.initial 0).pointerBeganCB Vec2.zero 0

/-- First sampled frame of the held press, at `t = 250` ms. -/
def holdFrame1 : InputState := pressAt0.update 250

/-- Second sampled frame of the held press, at `t = 500` ms, after the
end-of-frame clear of frame 1. -/
def holdFrame2 : InputState := holdFrame1.clearInteractionFlags.update 500

/-- Third sampled frame of the held press, at `t = 750` ms, after the
end-of-frame clear of frame 2. -/
def holdFrame3 : InputState := holdFrame2.clearInteractionFlags.update 750

/-- A completed quick tap: press at `t = 0`, release at `t = 100` ms without
movement, recording `lastTapTime = 100`. -/
def tapAt100 : InputState := pressAt0.pointerEndedCB Vec2.zero 100

/-- The tap state after the end-of-frame flag clear. -/
def clearedTap : InputState := tapAt100.clearInteractionFlags

/-- A pointer press at the origin at `t = 1000` ms. -/
def swipePress : InputState := (InputState.initial 0).pointerBeganCB Vec2.zero 1000

/-! ### Bridge lemmas for the rational floor, ceiling and rounding -/

theorem ratFloor_eq_floor (x : ℚ) : ratFloor x = ⌊x⌋ := by
  rw [ratFloor, Rat.floor_def]

theorem ratCeil_eq_ceil (x : ℚ) : ratCeil x = ⌈x⌉ := by
  rw [ratCeil, ratFloor_eq_floor, Int.floor_neg, neg_neg]

theorem fabsf_eq_abs (x : ℚ) : fabsf x = |x| := by
  rw [fabsf]
  split
  · exact (abs_of_neg (by assumption)).symm
  · exact (abs_of_nonneg (le_of_not_lt (by assumption))).symm

theorem roundf_eq_round_of_nonneg {x : ℚ} (h : 0 ≤ x) : roundf x = round x := by
  rw [roundf, if_pos h, ratFloor_eq_floor, round_eq]

theorem roundf_nonpos_of_neg {x : ℚ} (h : x < 0) : roundf x ≤ 0 := by
  rw [roundf, if_neg (not_le.mpr h), ratCeil_eq_ceil]
  have : x - 1 / 2 ≤ (0 : ℚ) := by linarith
  exact Int.ceil_le.mpr (by exact_mod_cast this)

theorem round_nonpos_of_neg {x : ℚ} (h : x < 0) : round x ≤ 0 := by
  rw [round_eq]
  calc ⌊x + 1 / 2⌋ ≤ ⌊(1 / 2 : ℚ)⌋ := Int.floor_mono (by linarith)
    _ = 0 := by norm_num

/-! ### C6 / C10: end-of-frame flag clearing -/

/-- C6: after any call to `clearInteractionFlags()`, the six one-shot flags
`tapped`, `doubleTapped`, `dragStarted`, `dragEnded`, `tapHeld` and
`swipeDetected` are all false and `swipeVelocity` equals `(0,0)`, regardless
of the prior input state. -/
theorem claim_C6 (s : InputState) :
    s.clearInteractionFlags.tapped = false ∧
    s.clearInteractionFlags.doubleTapped = false ∧
    s.clearInteractionFlags.dragStarted = false ∧
    s.clearInteractionFlags.dragEnded = false ∧
    s.clearInteractionFlags.tapHoldDetected = false ∧
    s.clearInteractionFlags.swipeDetected = false ∧
    s.clearInteractionFlags.swipeVelocity = Vec2.zero :=
  ⟨rfl, rfl, rfl, rfl, rfl, rfl, rfl⟩

/-- C10: `clearInteractionFlags()` leaves the pointer position, previous
position, start position, the pointer-down flag and the dragging flag
unchanged, so a drag in progress survives the end-of-frame clear. -/
theorem claim_C10 (s : InputState) :
    s.clearInteractionFlags.currPos = s.currPos ∧
    s.clearInteractionFlags.prevPos = s.prevPos ∧
    s.clearInteractionFlags.startPos = s.startPos ∧
    s.clearInteractionFlags.pointerDown = s.pointerDown ∧
    s.clearInteractionFlags.dragging = s.dragging :=
  ⟨rfl, rfl, rfl, rfl, rfl⟩

/-! ### C8: swipe detection and the zero-elapsed-time guard -/

theorem tapCheck_fields (s : InputState) (pos : Vec2) (stamp : ℕ) :
    (InputState.tapCheck s pos stamp).swipeDetected = s.swipeDetected ∧
    (InputState.tapCheck s pos stamp).swipeVelocity = s.swipeVelocity ∧
    (InputState.tapCheck s pos stamp).startPos = s.startPos ∧
    (InputState.tapCheck s pos stamp).pressStartTime = s.pressStartTime ∧
    (InputState.tapCheck s pos stamp).dragging = s.dragging ∧
    (InputState.tapCheck s pos stamp).doubleTapped = s.doubleTapped := by
  unfold InputState.tapCheck
  split <;> exact ⟨rfl, rfl, rfl, rfl, rfl, rfl⟩

theorem dragEndCheck_fields (s : InputState) :
    (InputState.dragEndCheck s).swipeDetected = s.swipeDetected ∧
    (InputState.dragEndCheck s).swipeVelocity = s.swipeVelocity ∧
    (InputState.dragEndCheck s).doubleTapped = s.doubleTapped := by
  unfold InputState.dragEndCheck
  split <;> exact ⟨rfl, rfl, rfl⟩

theorem swipeCheck_of_cond (s : InputState) (pos : Vec2) (stamp : ℕ)
    (hdist : Vec2.distGE pos s.startPos SWIPE_MIN_DISTANCE = true)
    (htime : elapsedMillis stamp s.pressStartTime ≤ SWIPE_MAX_TIME) :
    (InputState.swipeCheck s pos stamp).swipeDetected = true ∧
    (0 < elapsedMillis stamp s.pressStartTime →
      (InputState.swipeCheck s pos stamp).swipeVelocity =
        Vec2.smul (1 / ((elapsedMillis stamp s.pressStartTime : ℚ) / 1000))
          (Vec2.sub pos s.startPos)) ∧
    (elapsedMillis stamp s.pressStartTime = 0 →
      (InputState.swipeCheck s pos stamp).swipeVelocity = s.swipeVelocity) := by
  unfold InputState.swipeCheck
  split
  case isFalse hc => exact absurd (by simp [hdist, htime]) hc
  case isTrue hc =>
    dsimp only
    split
    case isTrue h0 =>
      refine ⟨rfl, fun _ => rfl, fun hz => ?_⟩
      exfalso
      simp [hz] at h0
    case isFalse h0 =>
      refine ⟨rfl, fun hp => ?_, fun _ => rfl⟩
      exact absurd (div_pos (by exact_mod_cast hp) (by norm_num)) h0

/-- C8: a release at displacement at least 50px within 300ms flags
`swipeDetected`; the velocity is displacement over elapsed seconds when the
elapsed time is positive, and when the elapsed time is zero the assignment is
skipped, leaving `swipeVelocity` unchanged. -/
theorem claim_C8 (s : InputState) (pos : Vec2) (stamp : ℕ)
    (hdist : Vec2.distGE pos s.startPos SWIPE_MIN_DISTANCE = true)
    (htime : elapsedMillis stamp s.pressStartTime ≤ SWIPE_MAX_TIME) :
    (s.pointerEndedCB pos stamp).swipeDetected = true ∧
    (0 < elapsedMillis stamp s.pressStartTime →
      (s.pointerEndedCB pos stamp).swipeVelocity =
        Vec2.smul (1 / ((elapsedMillis stamp s.pressStartTime : ℚ) / 1000))
          (Vec2.sub pos s.startPos)) ∧
    (elapsedMillis stamp s.pressStartTime = 0 →
      (s.pointerEndedCB pos stamp).swipeVelocity = s.swipeVelocity) := by
  rw [InputState.pointerEndedCB]
  have ht := tapCheck_fields
    { s with pointerDown := false, currPos := pos, prevPos := pos } pos stamp
  set t := InputState.tapCheck
    { s with pointerDown := false, currPos := pos, prevPos := pos } pos stamp with hteq
  have hts : t.startPos = s.startPos := ht.2.2.1
  have htp : t.pressStartTime = s.pressStartTime := ht.2.2.2.1
  have htv : t.swipeVelocity = s.swipeVelocity := ht.2.1
  have hsw := swipeCheck_of_cond t pos stamp (by rw [hts]; exact hdist) (by rw [htp]; exact htime)
  have hde := dragEndCheck_fields (InputState.swipeCheck t pos stamp)
  rw [htp, hts] at hsw
  refine ⟨?_, fun hp => ?_, fun hz => ?_⟩
  · rw [hde.1, hsw.1]
  · rw [hde.2.1]
    exact hsw.2.1 hp
  · rw [hde.2.1, hsw.2.2 hz]
    exact htv

/-- C8 witness: press at `t = 1000`, release 60px away at `t = 1200`. -/
theorem claim_C8_witness :
    (swipePress.pointerEndedCB ⟨60, 0⟩ 1200).swipeDetected = true :=
  (claim_C8 swipePress ⟨60, 0⟩ 1200
    (by norm_num [swipePress, InputState.pointerBeganCB, InputState.initial,
      Vec2.distGE, Vec2.len2, Vec2.sub, Vec2.zero, SWIPE_MIN_DISTANCE, elapsedMillis,
      DOUBLE_TAP_TIME])
    (by norm_num [swipePress, InputState.pointerBeganCB, InputState.initial,
      elapsedMillis, SWIPE_MAX_TIME, DOUBLE_TAP_TIME])).1

/-! ### C9: the double-tap window -/

theorem pointerBeganCB_doubleTapped (s : InputState) (pos : Vec2) (stamp : ℕ) :
    (s.pointerBeganCB pos stamp).doubleTapped =
      (if elapsedMillis s.lastTapTime stamp ≤ DOUBLE_TAP_TIME then true else s.doubleTapped) := by
  unfold InputState.pointerBeganCB
  split
  case isTrue hc => rw [if_pos (by simpa using hc)]
  case isFalse hc => rw [if_neg (by simpa using hc)]

/-- C9: on a press, `doubleTapped` is flagged if and only if the elapsed time
since the last recorded tap end is at most the 400ms window; in particular a
release at `t = 100` followed by presses at `t = 499` and `t = 501` yields
`doubleTapped == true` and `false` respectively. -/
theorem claim_C9 :
    (∀ (s : InputState) (pos : Vec2) (stamp : ℕ), s.doubleTapped = false →
      ((s.pointerBeganCB pos stamp).doubleTapped = true ↔
        elapsedMillis s.lastTapTime stamp ≤ DOUBLE_TAP_TIME)) ∧
    (clearedTap.pointerBeganCB Vec2.zero 499).doubleTapped = true ∧
    (clearedTap.pointerBeganCB Vec2.zero 501).doubleTapped = false := by
  have hgen : ∀ (s : InputState) (pos : Vec2) (stamp : ℕ), s.doubleTapped = false →
      ((s.pointerBeganCB pos stamp).doubleTapped = true ↔
        elapsedMillis s.lastTapTime stamp ≤ DOUBLE_TAP_TIME) := by
    intro s pos stamp h
    rw [pointerBeganCB_doubleTapped]
    split
    case isTrue hc => simpa using hc
    case isFalse hc => simp [h, hc]
  refine ⟨hgen, ?_, ?_⟩ <;>
    norm_num [clearedTap, tapAt100, pressAt0, InputState.pointerEndedCB,
      InputState.tapCheck, InputState.swipeCheck, InputState.dragEndCheck,
      InputState.pointerBeganCB, InputState.clearInteractionFlags, InputState.initial,
      Vec2.distGE, Vec2.distGT, Vec2.len2, Vec2.sub, Vec2.zero, elapsedMillis,
      DRAG_THRESHOLD, TAP_HOLD_TIME, SWIPE_MIN_DISTANCE, SWIPE_MAX_TIME, DOUBLE_TAP_TIME]

/-- C9 witness: the general biconditional applied at the concrete post-tap
state and press instant `t = 499`. -/
theorem claim_C9_witness :
    (clearedTap.pointerBeganCB Vec2.zero 499).doubleTapped = true :=
  (claim_C9.1 clearedTap Vec2.zero 499 rfl).mpr (by
    norm_num [clearedTap, tapAt100, pressAt0, InputState.pointerEndedCB,
      InputState.tapCheck, InputState.swipeCheck, InputState.dragEndCheck,
      InputState.pointerBeganCB, InputState.clearInteractionFlags, InputState.initial,
      Vec2.distGE, Vec2.distGT, Vec2.len2, Vec2.sub, Vec2.zero, elapsedMillis,
      DRAG_THRESHOLD, TAP_HOLD_TIME, SWIPE_MIN_DISTANCE, SWIPE_MAX_TIME, DOUBLE_TAP_TIME])

/-! ### C7: tap-and-hold refires after each end-of-frame clear -/

/-- C7 is false on the code: with a press held from `t = 0` and frames
sampled at `t = 250, 500, 750` ms (each frame running `update` and ending
with `clearInteractionFlags`), the `tapHeld` flag is observably true on BOTH
the `t = 500` and the `t = 750` frames of the same press, because
`clearInteractionFlags` resets the `_tapHoldDetected` guard every frame. -/
theorem claim_C7_refire :
    holdFrame1.tapHoldDetected = false ∧
    holdFrame2.tapHoldDetected = true ∧
    holdFrame3.tapHoldDetected = true := by
  norm_num [holdFrame1, holdFrame2, holdFrame3, pressAt0, InputState.update,
    InputState.clearInteractionFlags, InputState.pointerBeganCB, InputState.initial,
    Vec2.distGT, Vec2.len2, Vec2.sub, Vec2.zero, elapsedMillis, TAP_HOLD_TIME,
    DRAG_THRESHOLD, DOUBLE_TAP_TIME]

/-! ### C1: velocity-biased snap target selection -/

theorem clampIndex_nonneg (i : ℤ) : 0 ≤ clampIndex i := le_max_left 0 _

theorem clampIndex_le (i : ℤ) : clampIndex i ≤ NUM_FIDGETABLES - 1 := by
  rw [clampIndex]
  rcases le_total i (NUM_FIDGETABLES - 1) with h | h
  · rw [min_eq_left h]
    rcases le_total 0 i with h2 | h2
    · rw [max_eq_right h2]; exact h
    · rw [max_eq_left h2]; norm_num [NUM_FIDGETABLES]
  · rw [min_eq_right h, max_eq_right (by norm_num [NUM_FIDGETABLES])]

theorem clampIndex_of_nonpos {i : ℤ} (h : i ≤ 0) : clampIndex i = 0 := by
  rw [clampIndex, min_eq_left (le_trans h (by norm_num [NUM_FIDGETABLES])), max_eq_left h]

/-- C1: on drag release, the snap target is `ceil` of the fractional page for
a fast positive velocity, `floor` for a fast negative one, `round` otherwise,
clamped to `[0, N-1]`; with `pageWidth = 400` and `scrollPosition = 150`,
velocity `0` yields page 0 and velocity `+600` yields page 1. -/
theorem claim_C1 :
    (∀ (s : CarouselState) (v : ℚ),
      s.calculateSnapTarget v = snapTargetSpec (s.scrollPos / s.pageWidth) v) ∧
    demoState150.calculateSnapTarget 0 = 0 ∧
    demoState150.calculateSnapTarget 600 = 1 := by
  refine ⟨?_, ?_, ?_⟩
  · intro s v
    dsimp only [CarouselState.calculateSnapTarget, snapTargetSpec]
    rw [fabsf_eq_abs, ratCeil_eq_ceil, ratFloor_eq_floor, SWIPE_VELOCITY_THRESHOLD]
    set p := s.scrollPos / s.pageWidth with hp
    by_cases hv : (500 : ℚ) < |v|
    · rw [if_pos hv, if_pos hv, clampIndex]
    · rw [if_neg hv, if_neg hv]
      rcases le_or_lt 0 p with hnn | hneg
      · rw [roundf_eq_round_of_nonneg hnn, clampIndex]
      · have h1 := roundf_nonpos_of_neg hneg
        have h2 := round_nonpos_of_neg hneg
        rw [clampIndex_of_nonpos h1,
          min_eq_left (le_trans h2 (by norm_num [NUM_FIDGETABLES])), max_eq_left h2]
  · norm_num [demoState150, CarouselState.carouselInit, CarouselState.updateActivePage,
      CarouselState.activeFlags, CarouselState.calculateSnapTarget, clampIndex, roundf,
      ratFloor, ratCeil, fabsf, SWIPE_VELOCITY_THRESHOLD, NUM_FIDGETABLES]
  · norm_num [demoState150, CarouselState.carouselInit, CarouselState.updateActivePage,
      CarouselState.activeFlags, CarouselState.calculateSnapTarget, clampIndex, roundf,
      ratFloor, ratCeil, fabsf, SWIPE_VELOCITY_THRESHOLD, NUM_FIDGETABLES]

/-! ### Field-preservation lemmas for the carousel update blocks -/

namespace CarouselState

theorem updateActivePage_fields (s : CarouselState) :
    (updateActivePage s).isDragging = s.isDragging ∧
    (updateActivePage s).isSnapping = s.isSnapping ∧
    (updateActivePage s).scrollPos = s.scrollPos ∧
    (updateActivePage s).pageWidth = s.pageWidth ∧
    (updateActivePage s).targetScrollPos = s.targetScrollPos := by
  unfold updateActivePage
  dsimp only
  split <;> exact ⟨rfl, rfl, rfl, rfl, rfl⟩

theorem updateActivePage_idx (s : CarouselState) :
    (updateActivePage s).activePageIndex = clampIndex (roundf (s.scrollPos / s.pageWidth)) := by
  unfold updateActivePage
  dsimp only
  split
  · rfl
  · next h => rw [not_ne_iff] at h; exact h.symm

/-- Dragging and snapping are not simultaneously on. -/
def MutexOK (s : CarouselState) : Prop := s.isDragging = false ∨ s.isSnapping = false

theorem mutexOK_of_fields {a b : CarouselState} (hd : a.isDragging = b.isDragging)
    (hs : a.isSnapping = b.isSnapping) (h : MutexOK b) : MutexOK a := by
  rw [MutexOK, hd, hs]; exact h

theorem updateDragStart_mutex (s : CarouselState) (inp : FrameInput) (h : MutexOK s) :
    MutexOK (updateDragStart s inp) := by
  unfold updateDragStart
  split
  · exact Or.inr rfl
  · exact h

theorem updateOngoingDrag_mutex (s : CarouselState) (inp : FrameInput) (h : MutexOK s) :
    MutexOK (updateOngoingDrag s inp) := by
  unfold updateOngoingDrag
  split
  · exact mutexOK_of_fields (updateActivePage_fields _).1 (updateActivePage_fields _).2.1 h
  · exact h

theorem updateDragCancel_mutex (s : CarouselState) (inp : FrameInput) (h : MutexOK s) :
    MutexOK (updateDragCancel s inp) := by
  unfold updateDragCancel
  split
  · exact Or.inl rfl
  · exact h

theorem updateDragEnd_mutex (s : CarouselState) (inp : FrameInput) (h : MutexOK s) :
    MutexOK (updateDragEnd s inp) := by
  unfold updateDragEnd
  split
  · exact Or.inl rfl
  · exact h

theorem updateSnap_mutex (s : CarouselState) (dt : ℚ) (h : MutexOK s) :
    MutexOK (updateSnap s dt) := by
  unfold updateSnap
  split
  case isTrue hc =>
    have hd : s.isDragging = false := by
      simp only [Bool.and_eq_true, Bool.not_eq_true'] at hc
      exact hc.2
    dsimp only
    split <;>
      exact Or.inl (by rw [(updateActivePage_fields _).1]; exact hd)
  case isFalse => exact h

theorem update_mutex (s : CarouselState) (inp : FrameInput) (dt : ℚ) (h : MutexOK s) :
    MutexOK (update s inp dt) :=
  updateSnap_mutex _ _ (updateDragEnd_mutex _ _ (updateDragCancel_mutex _ _
    (updateOngoingDrag_mutex _ _ (updateDragStart_mutex _ _ h))))

theorem scrollToPage_mutex (s : CarouselState) (i : ℤ) (animated : Bool)
    (ha : animated = true → s.isDragging = false) :
    MutexOK (scrollToPage s i animated) := by
  unfold scrollToPage
  cases animated
  · exact mutexOK_of_fields (updateActivePage_fields _).1 (updateActivePage_fields _).2.1
      (Or.inr rfl)
  · exact Or.inl (ha rfl)

theorem carouselInit_mutex (w σ : ℚ) : MutexOK (carouselInit w σ) :=
  Or.inl (updateActivePage_fields _).1

end CarouselState

/-! ### C2: dragging/snapping mutual exclusion -/

/-- C2 counterexample: after init, one update frame in which a drag starts,
and then an animated `scrollToPage(3, true)` issued mid-drag, the carousel is
in a reachable state with `isDragging` and `isSnapping` both true. -/
theorem claim_C2_counterexample :
    CarouselState.Reachable bothFlagsState ∧
    bothFlagsState.isDragging = true ∧ bothFlagsState.isSnapping = true := by
  refine ⟨CarouselState.Reachable.scroll _ 3 true
    (CarouselState.Reachable.update _ dragStartInput (1 / 60)
      (CarouselState.Reachable.init 400 1)), ?_, rfl⟩
  norm_num [bothFlagsState, draggingState, dragStartInput, CarouselState.scrollToPage,
    CarouselState.startSnapAnimation, CarouselState.update, CarouselState.updateDragStart,
    CarouselState.updateOngoingDrag, CarouselState.updateDragCancel,
    CarouselState.updateDragEnd, CarouselState.updateSnap, CarouselState.updateActivePage,
    CarouselState.fidgetableInteracting, CarouselState.carouselInit,
    CarouselState.activeFlags, CarouselState.screenToScene, CarouselState.clampScrollPos,
    CarouselState.calculateSnapTarget, clampIndex, roundf, ratFloor, ratCeil, fabsf,
    NUM_FIDGETABLES, NUM_PAGES_BUILT, SNAP_DURATION, SWIPE_VELOCITY_THRESHOLD, Vec2.zero]

/-- C2 (amended): in every state reachable through `init`, `update` calls,
gesture events, non-animated `scrollToPage` calls, and animated
`scrollToPage` calls issued while no drag is in progress, `isDragging` and
`isSnapping` are never simultaneously true (an animated `scrollToPage`
during a drag is the one exception, shown reachable separately); and
starting a drag does cancel any in-flight snap. -/
theorem claim_C2_amended :
    (∀ s : CarouselState, CarouselState.ReachableNoMidDragScroll s →
      s.isDragging = false ∨ s.isSnapping = false) ∧
    (∀ (s : CarouselState) (inp : FrameInput),
      inp.didDragStart = true → s.isDragging = false →
      CarouselState.fidgetableInteracting s inp = false →
      (CarouselState.updateDragStart s inp).isSnapping = false) := by
  constructor
  · intro s h
    induction h with
    | init w σ => exact CarouselState.carouselInit_mutex w σ
    | update s inp dt _ ih => exact CarouselState.update_mutex s inp dt ih
    | scroll s i animated _ ha _ => exact CarouselState.scrollToPage_mutex s i animated ha
  · intro s inp h1 h2 h3
    unfold CarouselState.updateDragStart
    rw [if_pos (by simp [h1, h2, h3])]

/-- C2 witness: the amended invariant at the freshly initialized carousel. -/
theorem claim_C2_witness :
    (CarouselState.carouselInit 400 1).isDragging = false ∨
      (CarouselState.carouselInit 400 1).isSnapping = false :=
  claim_C2_amended.1 _ (CarouselState.ReachableNoMidDragScroll.init 400 1)

/-! ### C5: active-page uniqueness and derivation from the scroll position -/

namespace CarouselState

/-- The activation invariant: the `_isActive` flags are exactly those set by
the last activation pass, and the active index is the clamped rounding of the
fractional page. -/
def ActiveInv (s : CarouselState) : Prop :=
  s.pagesActive = activeFlags s.activePageIndex ∧
  s.activePageIndex = clampIndex (roundf (s.scrollPos / s.pageWidth))

theorem activeInv_of_fields {a b : CarouselState} (h1 : a.pagesActive = b.pagesActive)
    (h2 : a.activePageIndex = b.activePageIndex) (h3 : a.scrollPos = b.scrollPos)
    (h4 : a.pageWidth = b.pageWidth) (h : ActiveInv b) : ActiveInv a := by
  rw [ActiveInv, h1, h2, h3, h4]; exact h

theorem updateActivePage_activeInv (s : CarouselState)
    (h1 : s.pagesActive = activeFlags s.activePageIndex) :
    ActiveInv (updateActivePage s) := by
  unfold ActiveInv updateActivePage
  dsimp only
  split
  · exact ⟨rfl, rfl⟩
  · next h => rw [not_ne_iff] at h; exact ⟨h1, h.symm⟩

theorem updateDragStart_activeInv (s : CarouselState) (inp : FrameInput)
    (h : ActiveInv s) : ActiveInv (updateDragStart s inp) := by
  unfold updateDragStart
  split
  · exact activeInv_of_fields rfl rfl rfl rfl h
  · exact h

theorem updateOngoingDrag_activeInv (s : CarouselState) (inp : FrameInput)
    (h : ActiveInv s) : ActiveInv (updateOngoingDrag s inp) := by
  unfold updateOngoingDrag
  split
  · exact updateActivePage_activeInv _ h.1
  · exact h

theorem updateDragCancel_activeInv (s : CarouselState) (inp : FrameInput)
    (h : ActiveInv s) : ActiveInv (updateDragCancel s inp) := by
  unfold updateDragCancel
  split
  · exact activeInv_of_fields rfl rfl rfl rfl h
  · exact h

theorem updateDragEnd_activeInv (s : CarouselState) (inp : FrameInput)
    (h : ActiveInv s) : ActiveInv (updateDragEnd s inp) := by
  unfold updateDragEnd
  split
  · exact activeInv_of_fields rfl rfl rfl rfl h
  · exact h

theorem updateSnap_activeInv (s : CarouselState) (dt : ℚ)
    (h : ActiveInv s) : ActiveInv (updateSnap s dt) := by
  unfold updateSnap
  split
  · dsimp only
    split
    · exact updateActivePage_activeInv _ h.1
    · exact updateActivePage_activeInv _ h.1
  · exact h

theorem update_activeInv (s : CarouselState) (inp : FrameInput) (dt : ℚ)
    (h : ActiveInv s) : ActiveInv (update s inp dt) :=
  updateSnap_activeInv _ _ (updateDragEnd_activeInv _ _ (updateDragCancel_activeInv _ _
    (updateOngoingDrag_activeInv _ _ (updateDragStart_activeInv _ _ h))))

theorem scrollToPage_activeInv (s : CarouselState) (i : ℤ) (animated : Bool)
    (h : ActiveInv s) : ActiveInv (scrollToPage s i animated) := by
  unfold scrollToPage
  cases animated
  · exact updateActivePage_activeInv _ h.1
  · exact activeInv_of_fields rfl rfl rfl rfl h

theorem carouselInit_activeInv (w σ : ℚ) : ActiveInv (carouselInit w σ) :=
  updateActivePage_activeInv _ rfl

theorem reachable_activeInv (s : CarouselState) (h : Reachable s) : ActiveInv s := by
  induction h with
  | init w σ => exact carouselInit_activeInv w σ
  | update s inp dt _ ih => exact update_activeInv s inp dt ih
  | scroll s i animated _ ih => exact scrollToPage_activeInv s i animated ih

end CarouselState

theorem activeFlags_count_one {i : ℤ} (h0 : 0 ≤ i) (h7 : i ≤ NUM_FIDGETABLES - 1) :
    (CarouselState.activeFlags i).count true = 1 := by
  rw [NUM_FIDGETABLES] at h7
  interval_cases i <;> decide

theorem activeFlags_get_self {i : ℤ} (h0 : 0 ≤ i) (h7 : i ≤ NUM_FIDGETABLES - 1) :
    (CarouselState.activeFlags i).get? i.toNat = some true := by
  rw [NUM_FIDGETABLES] at h7
  interval_cases i <;> decide

/-- C5: in every reachable state, exactly one page's `isActive` flag is true,
and it is the page at index `roundf(scrollPosition / pageWidth)` clamped into
`[0, N-1]`. -/
theorem claim_C5 (s : CarouselState) (h : CarouselState.Reachable s) :
    s.pagesActive.count true = 1 ∧
    s.pagesActive.get? (clampIndex (roundf (s.scrollPos / s.pageWidth))).toNat = some true := by
  obtain ⟨h1, h2⟩ := CarouselState.reachable_activeInv s h
  rw [h1, ← h2]
  constructor
  · exact activeFlags_count_one (by rw [h2]; exact clampIndex_nonneg _)
      (by rw [h2]; exact clampIndex_le _)
  · exact activeFlags_get_self (by rw [h2]; exact clampIndex_nonneg _)
      (by rw [h2]; exact clampIndex_le _)

/-- C5 witness: the invariant at the freshly initialized carousel. -/
theorem claim_C5_witness :
    (CarouselState.carouselInit 400 1).pagesActive.count true = 1 ∧
    (CarouselState.carouselInit 400 1).pagesActive.get?
      (clampIndex (roundf ((CarouselState.carouselInit 400 1).scrollPos /
        (CarouselState.carouselInit 400 1).pageWidth))).toNat = some true :=
  claim_C5 _ (CarouselState.Reachable.init 400 1)

/-! ### C4: out-of-range page requests are clamped, never faults -/

/-- C4: `scrollToPage` accepts every integer index (no failure path exists);
the resulting `activePageIndex` is always in `[0, N-1]`, and in particular
`scrollToPage(-5, false)` lands on page 0 and `scrollToPage(99, false)` on
page `N-1 = 7`. -/
theorem claim_C4 :
    (∀ (s : CarouselState) (i : ℤ) (animated : Bool),
      0 ≤ s.activePageIndex → s.activePageIndex ≤ NUM_FIDGETABLES - 1 →
      0 ≤ (s.scrollToPage i animated).activePageIndex ∧
        (s.scrollToPage i animated).activePageIndex ≤ NUM_FIDGETABLES - 1) ∧
    ((CarouselState.carouselInit 400 1).scrollToPage (-5) false).activePageIndex = 0 ∧
    ((CarouselState.carouselInit 400 1).scrollToPage 99 false).activePageIndex =
      NUM_FIDGETABLES - 1 := by
  refine ⟨?_, ?_, ?_⟩
  · intro s i animated h0 h7
    unfold CarouselState.scrollToPage
    cases animated
    · rw [if_neg Bool.false_ne_true, CarouselState.updateActivePage_idx]
      exact ⟨clampIndex_nonneg _, clampIndex_le _⟩
    · rw [if_pos rfl]
      exact ⟨h0, h7⟩
  · norm_num [CarouselState.scrollToPage, CarouselState.carouselInit,
      CarouselState.updateActivePage, CarouselState.activeFlags, clampIndex, roundf,
      ratFloor, ratCeil, NUM_FIDGETABLES]
  · norm_num [CarouselState.scrollToPage, CarouselState.carouselInit,
      CarouselState.updateActivePage, CarouselState.activeFlags, clampIndex, roundf,
      ratFloor, ratCeil, NUM_FIDGETABLES]

/-- C4 witness: the bound applied at the freshly initialized carousel with an
animated request for page 99. -/
theorem claim_C4_witness :
    0 ≤ ((CarouselState.carouselInit 400 1).scrollToPage 99 true).activePageIndex ∧
    ((CarouselState.carouselInit 400 1).scrollToPage 99 true).activePageIndex ≤
      NUM_FIDGETABLES - 1 :=
  claim_C4.1 (CarouselState.carouselInit 400 1) 99 true
    (by norm_num [CarouselState.carouselInit, CarouselState.updateActivePage,
      CarouselState.activeFlags, clampIndex, roundf, ratFloor, ratCeil, NUM_FIDGETABLES])
    (by norm_num [CarouselState.carouselInit, CarouselState.updateActivePage,
      CarouselState.activeFlags, clampIndex, roundf, ratFloor, ratCeil, NUM_FIDGETABLES])

/-! ### C3: drag interruption by a page interaction -/

namespace CarouselState

theorem fidgetableInteracting_eq_true (s : CarouselState) (inp : FrameInput)
    (hi : inp.activeInteracting = true) (h0 : 0 ≤ s.activePageIndex)
    (h10 : s.activePageIndex < (NUM_PAGES_BUILT : ℤ)) :
    fidgetableInteracting s inp = true := by
  unfold fidgetableInteracting
  rw [if_pos ⟨h0, h10⟩]
  exact hi

theorem updateDragStart_of_dragging (s : CarouselState) (inp : FrameInput)
    (hd : s.isDragging = true) : updateDragStart s inp = s := by
  unfold updateDragStart
  rw [if_neg]
  simp [hd]

theorem updateOngoingDrag_of_interacting (s : CarouselState) (inp : FrameInput)
    (hf : fidgetableInteracting s inp = true) : updateOngoingDrag s inp = s := by
  unfold updateOngoingDrag
  rw [if_neg]
  simp [hf]

theorem calculateSnapTarget_zero (s : CarouselState) :
    s.calculateSnapTarget 0 = clampIndex (roundf (s.scrollPos / s.pageWidth)) := by
  unfold calculateSnapTarget
  dsimp only
  rw [if_neg]
  norm_num [fabsf, SWIPE_VELOCITY_THRESHOLD]

theorem updateDragCancel_of_interacting (s : CarouselState) (inp : FrameInput)
    (hd : s.isDragging = true) (hf : fidgetableInteracting s inp = true) :
    updateDragCancel s inp =
      startSnapAnimation { s with isDragging := false }
        (calculateSnapTarget { s with isDragging := false } 0) := by
  unfold updateDragCancel
  rw [if_pos]
  simp [hd, hf]

theorem updateDragEnd_of_not_dragging (s : CarouselState) (inp : FrameInput)
    (hd : s.isDragging = false) : updateDragEnd s inp = s := by
  unfold updateDragEnd
  rw [if_neg]
  simp [hd]

theorem updateSnap_fresh (t : CarouselState) (dt : ℚ) (hs : t.isSnapping = true)
    (hd : t.isDragging = false) (hp : t.snapProgress = 0) :
    (updateSnap t dt).isDragging = false ∧
    (updateSnap t dt).targetScrollPos = t.targetScrollPos ∧
    (dt < SNAP_DURATION → (updateSnap t dt).isSnapping = true) ∧
    (SNAP_DURATION ≤ dt → (updateSnap t dt).isSnapping = false ∧
      (updateSnap t dt).scrollPos = t.targetScrollPos) := by
  unfold updateSnap
  rw [if_pos (by simp [hs, hd])]
  dsimp only
  rw [hp, zero_add]
  have hpos : (0 : ℚ) < SNAP_DURATION := by norm_num [SNAP_DURATION]
  by_cases hc : (1 : ℚ) ≤ dt / SNAP_DURATION
  · rw [if_pos hc]
    have hge : SNAP_DURATION ≤ dt := (one_le_div hpos).mp hc
    refine ⟨?_, ?_, fun hlt => absurd hge (not_le.mpr hlt), fun _ => ⟨?_, ?_⟩⟩
    · rw [(updateActivePage_fields _).1]; exact hd
    · exact (updateActivePage_fields _).2.2.2.2
    · exact (updateActivePage_fields _).2.1
    · exact (updateActivePage_fields _).2.2.1
  · rw [if_neg hc]
    have hlt : dt < SNAP_DURATION := by
      by_contra hge
      exact hc ((one_le_div hpos).mpr (not_lt.mp hge))
    refine ⟨?_, ?_, fun _ => ?_, fun hge => absurd hge (not_le.mpr hlt)⟩
    · rw [(updateActivePage_fields _).1]; exact hd
    · exact (updateActivePage_fields _).2.2.2.2
    · rw [(updateActivePage_fields _).2.1]; exact hs

end CarouselState

/-- C3 (amended): if the active page's `isInteracting` is true while the
carousel is dragging, the next `update` call exits dragging and starts a snap
toward the page nearest the current scroll position
(`roundf(scrollPosition / pageWidth)` clamped); at the end of that same call
`isSnapping` is true provided the call's timestep is below the snap duration
(0.3s) — a timestep of 0.3s or more completes the snap within the same
`update` call, ending with `isSnapping == false` and the scroll position
already at the target. -/
theorem claim_C3_amended (s : CarouselState) (inp : FrameInput) (dt : ℚ)
    (hd : s.isDragging = true) (hi : inp.activeInteracting = true)
    (h0 : 0 ≤ s.activePageIndex) (h10 : s.activePageIndex < (NUM_PAGES_BUILT : ℤ)) :
    (CarouselState.update s inp dt).isDragging = false ∧
    (CarouselState.update s inp dt).targetScrollPos =
      (clampIndex (roundf (s.scrollPos / s.pageWidth)) : ℚ) * s.pageWidth ∧
    (dt < SNAP_DURATION → (CarouselState.update s inp dt).isSnapping = true) ∧
    (SNAP_DURATION ≤ dt → (CarouselState.update s inp dt).isSnapping = false ∧
      (CarouselState.update s inp dt).scrollPos =
        (CarouselState.update s inp dt).targetScrollPos) := by
  have hf := CarouselState.fidgetableInteracting_eq_true s inp hi h0 h10
  rw [CarouselState.update, CarouselState.updateDragStart_of_dragging s inp hd,
    CarouselState.updateOngoingDrag_of_interacting s inp hf,
    CarouselState.updateDragCancel_of_interacting s inp hd hf,
    CarouselState.updateDragEnd_of_not_dragging _ inp rfl]
  have hsnap := CarouselState.updateSnap_fresh
    (CarouselState.startSnapAnimation { s with isDragging := false }
      (CarouselState.calculateSnapTarget { s with isDragging := false } 0)) dt rfl rfl rfl
  refine ⟨hsnap.1, ?_, hsnap.2.2.1, fun hge => ⟨(hsnap.2.2.2 hge).1, ?_⟩⟩
  · rw [hsnap.2.1]
    show (CarouselState.calculateSnapTarget { s with isDragging := false } 0 : ℚ) *
        s.pageWidth = _
    rw [CarouselState.calculateSnapTarget_zero]
  · rw [(hsnap.2.2.2 hge).2, hsnap.2.1]

/-- C3 witness: the amended statement applied to a reachable dragging state,
an interacting page and a 1/60s timestep. -/
theorem claim_C3_amended_witness :
    (CarouselState.update draggingState interactInput (1 / 60)).isDragging = false ∧
    (1 : ℚ) / 60 < SNAP_DURATION ∧
    (CarouselState.update draggingState interactInput (1 / 60)).isSnapping = true := by
  have h := claim_C3_amended draggingState interactInput (1 / 60)
    (by norm_num [draggingState, dragStartInput, CarouselState.update,
      CarouselState.updateDragStart, CarouselState.updateOngoingDrag,
      CarouselState.updateDragCancel, CarouselState.updateDragEnd,
      CarouselState.updateSnap, CarouselState.updateActivePage,
      CarouselState.fidgetableInteracting, CarouselState.carouselInit,
      CarouselState.activeFlags, CarouselState.screenToScene,
      CarouselState.clampScrollPos, CarouselState.calculateSnapTarget,
      CarouselState.startSnapAnimation, clampIndex, roundf, ratFloor, ratCeil, fabsf,
      NUM_FIDGETABLES, NUM_PAGES_BUILT, SNAP_DURATION, SWIPE_VELOCITY_THRESHOLD,
      Vec2.zero])
    rfl
    (by norm_num [draggingState, dragStartInput, CarouselState.update,
      CarouselState.updateDragStart, CarouselState.updateOngoingDrag,
      CarouselState.updateDragCancel, CarouselState.updateDragEnd,
      CarouselState.updateSnap, CarouselState.updateActivePage,
      CarouselState.fidgetableInteracting, CarouselState.carouselInit,
      CarouselState.activeFlags, CarouselState.screenToScene,
      CarouselState.clampScrollPos, CarouselState.calculateSnapTarget,
      CarouselState.startSnapAnimation, clampIndex, roundf, ratFloor, ratCeil, fabsf,
      NUM_FIDGETABLES, NUM_PAGES_BUILT, SNAP_DURATION, SWIPE_VELOCITY_THRESHOLD,
      Vec2.zero])
    (by norm_num [draggingState, dragStartInput, CarouselState.update,
      CarouselState.updateDragStart, CarouselState.updateOngoingDrag,
      CarouselState.updateDragCancel, CarouselState.updateDragEnd,
      CarouselState.updateSnap, CarouselState.updateActivePage,
      CarouselState.fidgetableInteracting, CarouselState.carouselInit,
      CarouselState.activeFlags, CarouselState.screenToScene,
      CarouselState.clampScrollPos, CarouselState.calculateSnapTarget,
      CarouselState.startSnapAnimation, clampIndex, roundf, ratFloor, ratCeil, fabsf,
      NUM_FIDGETABLES, NUM_PAGES_BUILT, SNAP_DURATION, SWIPE_VELOCITY_THRESHOLD,
      Vec2.zero])
  exact ⟨h.1, by norm_num [SNAP_DURATION], h.2.2.1 (by norm_num [SNAP_DURATION])⟩

/-- C3 counterexample to the unconditional claim: from the same reachable
dragging state with the active page interacting, an `update` call with
timestep 1s (at least the 0.3s snap duration) ends with `isSnapping == false`
— the snap completed inside the very call that cancelled the drag. -/
theorem claim_C3_counterexample :
    CarouselState.Reachable draggingState ∧
    draggingState.isDragging = true ∧
    interactInput.activeInteracting = true ∧
    (CarouselState.update draggingState interactInput 1).isDragging = false ∧
    (CarouselState.update draggingState interactInput 1).isSnapping = false := by
  refine ⟨CarouselState.Reachable.update _ dragStartInput (1 / 60)
    (CarouselState.Reachable.init 400 1), ?_, rfl, ?_, ?_⟩ <;>
    norm_num [draggingState, dragStartInput, interactInput, CarouselState.update,
      CarouselState.updateDragStart, CarouselState.updateOngoingDrag,
      CarouselState.updateDragCancel, CarouselState.updateDragEnd,
      CarouselState.updateSnap, CarouselState.updateActivePage,
      CarouselState.fidgetableInteracting, CarouselState.carouselInit,
      CarouselState.activeFlags, CarouselState.screenToScene,
      CarouselState.clampScrollPos, CarouselState.calculateSnapTarget,
      CarouselState.startSnapAnimation, clampIndex, roundf, ratFloor, ratCeil, fabsf,
      NUM_FIDGETABLES, NUM_PAGES_BUILT, SNAP_DURATION, SWIPE_VELOCITY_THRESHOLD,
      Vec2.zero]

end Tuggle
